import Mathlib

/-!
Verification of the session/process orchestration core of a chat relay bot
(`bot.py`).  The Python source is shallowly embedded: pure computations become
Lean functions, the session file becomes an explicit `FileContent` value that
`load_session_data` / `save_session_data` read and write, spawning the external
CLI becomes an oracle `exec : List String → String → ProcResult`, and the chat
platform's outbound primitives become events recorded in result traces.
-/

namespace Bot

/-- Runtime configuration fixed at process start: the allowed chat identity
(`ALLOWED_USERNAME`), the process start directory (`DEFAULT_SCOPE = os.getcwd()`),
and the scope preset table (`SCOPE_PRESETS`, whose values are environment
derived paths such as the expanded `~/Desktop`). -/
structure Config where
  ALLOWED_USERNAME : String
  DEFAULT_SCOPE : String
  SCOPE_PRESETS : List (String × String)
deriving Repr

/-- The inline message size threshold, `TELEGRAM_MAX_LENGTH = 4096`. -/
def TELEGRAM_MAX_LENGTH : Nat := 4096

/-- The session record the program works with: `{"session_id": ..., "scope": ...}`.
`session_id` is a string or JSON null (Python `None`), `scope` a directory path. -/
structure SessionData where
  session_id : Option String
  scope : String
deriving Repr, DecidableEq

/-- JSON values as the `json` library parses/serializes them, restricted to the
constructors the session file can contain on the paths the program exercises. -/
inductive Json where
  | null : Json
  | str (s : String) : Json
  | obj (fields : List (String × Json)) : Json

/-- First-match key lookup in a JSON object's field list (Python `dict` access
for the dictionaries `json.loads` produces here). -/
def jsonLookup : List (String × Json) → String → Option Json
  | [], _ => none
  | (k, v) :: rest, key => if k = key then some v else jsonLookup rest key

/-- Lookup `d.get(key)` on a parsed JSON value: `none` when the value is not an object
or the key is missing. -/
def jsonGet : Json → String → Option Json
  | .obj fields, key => jsonLookup fields key
  | .null, _ => none
  | .str _, _ => none

/-- Serialization `json.dumps` of a session record: the two-field object the program writes. -/
def dumpSession (d : SessionData) : Json :=
  .obj [("session_id", match d.session_id with
          | none => Json.null
          | some s => Json.str s),
        ("scope", Json.str d.scope)]

/-- The state of the session file `session_data.json`: absent, present but
unreadable or unparsable (`json.loads` fails or `read_text` raises — the bare
`except` in `load_session_data` swallows both), or holding a parsed JSON value.
The textual serialization of the `json` library is modelled at the AST level
(`json.loads (json.dumps j) = j`). -/
inductive FileContent where
  | missing : FileContent
  | corrupt (raw : String) : FileContent
  | stored (j : Json) : FileContent

/-- Embedding of `load_session_data` (bot.py:60-66): if the file exists, try to parse it,
falling back to the default record `{"session_id": None, "scope": DEFAULT_SCOPE}`
on any failure; the function is total (never raises).  Field extraction mirrors
how every caller reads the record, via `.get("session_id")` and
`.get("scope", DEFAULT_SCOPE)`; values of a shape the program never writes
(non-string scope, non-string non-null session id) collapse to those defaults. -/
def load_session_data (cfg : Config) : FileContent → SessionData
  | .missing => { session_id := none, scope := cfg.DEFAULT_SCOPE }
  | .corrupt _ => { session_id := none, scope := cfg.DEFAULT_SCOPE }
  | .stored j =>
      { session_id := match jsonGet j "session_id" with
          | some (Json.str s) => some s
          | _ => none,
        scope := match jsonGet j "scope" with
          | some (Json.str s) => s
          | _ => cfg.DEFAULT_SCOPE }

/-- Embedding of `save_session_data` (bot.py:69-70): whole-file overwrite with the record's
JSON serialization. -/
def save_session_data (d : SessionData) : FileContent :=
  .stored (dumpSession d)

/-- Python truthiness on an optional string (`if session_id:`,
`if image_path:`): `None` and the empty string are falsy. -/
def pyTruthy : Option String → Bool
  | none => false
  | some s => s ≠ ""

/-- Python `a or b` for an optional string `a` and default `b`
(`update.message.caption or "What's in this image?"`). -/
def pyOr (a : Option String) (b : String) : String :=
  match a with
  | none => b
  | some s => if s = "" then b else s

/-- Python `s.lower()` (character-wise lowering; the identities involved here
are ASCII). -/
def strToLower (s : String) : String :=
  String.mk (s.toList.map Char.toLower)

/-- Does `pat` match `s` at its head (Python `s.startswith(pat)` when applied
to whole strings)? -/
def matchesAt : List Char → List Char → Bool
  | [], _ => true
  | _ :: _, [] => false
  | p :: ps, c :: cs => p == c && matchesAt ps cs

/-- Python `s.startswith(pre)`. -/
def pyStartsWith (s pre : String) : Bool :=
  matchesAt pre.toList s.toList

/-- Left-to-right, non-overlapping replacement of `pat` by `repl`, fuelled by
the input length (enough fuel, since every step consumes at least one
character). -/
def pyReplaceAux (pat repl : List Char) : Nat → List Char → List Char
  | _, [] => []
  | 0, s => s
  | Nat.succ n, c :: cs =>
      if matchesAt pat (c :: cs) then
        repl ++ pyReplaceAux pat repl n (List.drop (pat.length - 1) cs)
      else
        c :: pyReplaceAux pat repl n cs

/-- Python `s.replace(pat, repl)` for a nonempty `pat` (the only use here is
`data.replace("scope_", "")`). -/
def pyReplace (s pat repl : String) : String :=
  String.mk (pyReplaceAux pat.toList repl.toList s.toList.length s.toList)

/-- Embedding of `is_allowed_user` (bot.py:73-77): the sender has a truthy username and it
equals `ALLOWED_USERNAME` case-insensitively; otherwise `False`. -/
def is_allowed_user (cfg : Config) (username : Option String) : Bool :=
  match username with
  | none => false
  | some u => if u = "" then false
              else strToLower u = strToLower cfg.ALLOWED_USERNAME

/-- Does `pat` occur as a contiguous run somewhere in `s`? -/
def occursIn (pat : List Char) : List Char → Bool
  | [] => matchesAt pat []
  | c :: cs => matchesAt pat (c :: cs) || occursIn pat cs

/-- Python's substring test `pat in s`. -/
def strContains (s pat : String) : Bool :=
  occursIn pat.toList s.toList

/-- The test at bot.py:160: the decoded stderr, lowercased, contains
`"session"` or `"continue"`. -/
def sessionVocab (error_msg : String) : Bool :=
  strContains (strToLower error_msg) "session" ||
    strContains (strToLower error_msg) "continue"

/-- Outcome of spawning the external CLI: the binary was not found
(`FileNotFoundError` from `create_subprocess_exec`), some other exception `e`
(with `str(e)` as payload), or the process ran to completion with an exit code
and decoded stdout/stderr text (decoding with lossy replacement is absorbed
into the oracle producing `String`s). -/
inductive ProcResult where
  | notFound : ProcResult
  | exn (msg : String) : ProcResult
  | done (returncode : Int) (stdout stderr : String) : ProcResult

/-- An execution environment for the CLI: what spawning arguments `cmd` with
working directory `cwd` yields. -/
def ExecOracle : Type := List String → String → ProcResult

/-- The argument vector built at bot.py:139-147 (and, with `session_id = none`,
at bot.py:179-184): `["claude"]`, then `["--continue", session_id]` when the
session id is truthy, then `["--image", image_path]` when the image path is
truthy, then `["-p", prompt]`. -/
def buildCmd (prompt : String) (image_path : Option String)
    (session_id : Option String) : List String :=
  ["claude"]
    ++ (match session_id with
        | some sid => if sid = "" then [] else ["--continue", sid]
        | none => [])
    ++ (match image_path with
        | some p => if p = "" then [] else ["--image", p]
        | none => [])
    ++ ["-p", prompt]

/-- Text of `str(FileNotFoundError(...))` as seen by the bare `except Exception`
in `call_claude_new_session`. -/
def fileNotFoundStr : String := "No such file or directory: 'claude'"

/-- What a single `call_claude_new_session` run produced: the returned string
and the processes it spawned (argument vector and working directory, in
order). -/
structure NewSessionOutcome where
  reply : String
  calls : List (List String × String)
deriving Repr, DecidableEq

/-- Embedding of `call_claude_new_session` (bot.py:178-201): rebuild the command with no
continuation token, spawn it in `scope`; on nonzero exit return
`"Error: " ++ stderr` (no further recovery), on exceptions return an error
string, on success return stdout. -/
def call_claude_new_session (exec : ExecOracle) (prompt : String)
    (image_path : Option String) (scope : String) : NewSessionOutcome :=
  let cmd := buildCmd prompt image_path none
  match exec cmd scope with
  | .notFound => { reply := "Error: " ++ fileNotFoundStr, calls := [(cmd, scope)] }
  | .exn m => { reply := "Error: " ++ m, calls := [(cmd, scope)] }
  | .done rc out err =>
      if rc ≠ 0 then
        { reply := "Error: " ++ err, calls := [(cmd, scope)] }
      else
        { reply := out, calls := [(cmd, scope)] }

/-- What a single `call_claude` run produced: the returned string, the session
record written to the store (`none` when no write happened), the resulting
file state, and the processes spawned in order. -/
structure ClaudeOutcome where
  reply : String
  saved : Option SessionData
  store' : FileContent
  calls : List (List String × String)

/-- Embedding of `call_claude` (bot.py:134-175): load the session record, build the
argument vector from its token, spawn the CLI with `cwd = scope`.  On nonzero
exit whose stderr mentions session vocabulary, delegate once to
`call_claude_new_session` and return its outcome; on other nonzero exits
surface the stderr; on success return stdout, and when the call started with
no truthy token, write the record back with `session_id = "last"`. -/
def call_claude (cfg : Config) (exec : ExecOracle) (fc : FileContent)
    (prompt : String) (image_path : Option String) : ClaudeOutcome :=
  let session_data := load_session_data cfg fc
  let scope := session_data.scope
  let session_id := session_data.session_id
  let cmd := buildCmd prompt image_path session_id
  match exec cmd scope with
  | .notFound =>
      { reply := "Error: 'claude' command not found. Make sure Claude Code CLI is installed and in PATH.",
        saved := none, store' := fc, calls := [(cmd, scope)] }
  | .exn m =>
      { reply := "Error: " ++ m, saved := none, store' := fc, calls := [(cmd, scope)] }
  | .done rc out err =>
      if rc ≠ 0 then
        if sessionVocab err then
          let retry := call_claude_new_session exec prompt image_path scope
          { reply := retry.reply, saved := none, store' := fc,
            calls := (cmd, scope) :: retry.calls }
        else
          { reply := "Error calling Claude: " ++ err,
            saved := none, store' := fc, calls := [(cmd, scope)] }
      else
        if pyTruthy session_id then
          { reply := out, saved := none, store' := fc, calls := [(cmd, scope)] }
        else
          let d' : SessionData := { session_data with session_id := some "last" }
          { reply := out, saved := some d', store' := save_session_data d',
            calls := [(cmd, scope)] }

/-- An outbound delivery attempt recorded by a handler. -/
inductive SendEvent where
  | inlineMsg (text : String) : SendEvent
  | document (content : String) (filename : String) (caption : String) : SendEvent
  | fileDoc (path : String) (filename : String) : SendEvent
  | filePhoto (path : String) (caption : String) : SendEvent
deriving Repr, DecidableEq

/-- Python `not response.strip()`: every character is whitespace. -/
def isBlank (s : String) : Bool :=
  s.toList.all Char.isWhitespace

/-- The caption at bot.py:225. -/
def tooLongCaption (n : Nat) : String :=
  "Response was too long (" ++ toString n ++ " chars), sent as file."

/-- What one `send_response` run did: the delivery attempts, whether the
staging temporary file was created and whether it was removed, and whether the
attachment send raised (the exception propagates after the `finally`). -/
structure DeliveryResult where
  events : List SendEvent
  tempCreated : Bool
  tempRemoved : Bool
  raised : Bool
deriving Repr, DecidableEq

/-- Embedding of `send_response` (bot.py:204-228): blank text is replaced by
`"(empty response)"`; text of length `≤ TELEGRAM_MAX_LENGTH` is sent as one
inline message; longer text is staged into a temporary file, sent once as a
document with the length-reporting caption, and the staging file is removed in
a `finally` on both the success and the failure path of the send (`docOk`
tells the oracle outcome of `reply_document`). -/
def send_response (response : String) (docOk : Bool) : DeliveryResult :=
  let response := if isBlank response then "(empty response)" else response
  if response.length ≤ TELEGRAM_MAX_LENGTH then
    { events := [.inlineMsg response],
      tempCreated := false, tempRemoved := false, raised := false }
  else
    { events := [.document response "response.txt" (tooLongCaption response.length)],
      tempCreated := true, tempRemoved := true, raised := !docOk }

/-- The filesystem facts the handlers consult (`os.path.isdir`, `os.path.isfile`,
`os.path.exists`, `os.path.getsize`, `os.path.isabs`, `os.path.expanduser`,
`os.path.basename`, and `os.path.splitext(...)[1]` as `extension`). -/
structure FsEnv where
  isDir : String → Bool
  isFile : String → Bool
  pathExists : String → Bool
  getsize : String → Nat
  isAbs : String → Bool
  expanduser : String → String
  basename : String → String
  extension : String → String

/-- Model of `os.path.join a b` for a relative `b` (path separator fixed as `/`). -/
def joinPath (a b : String) : String := a ++ "/" ++ b

/-- Model of `os.makedirs(p, exist_ok=True)`: afterwards `p` is an existing directory
(creation of intermediate parents is not tracked; no claim consults them). -/
def makedirs (env : FsEnv) (p : String) : FsEnv :=
  { env with
      isDir := fun q => q = p || env.isDir q,
      pathExists := fun q => q = p || env.pathExists q }

/-- The observable behaviour of one handler invocation: how many times the
session store was loaded, the CLI processes spawned, chat messages/attachments
sent, message edits, callback-query answers (`none` = `query.answer()` with no
text), the session records written, and the resulting session file state. -/
structure HandlerResult where
  loads : Nat
  spawns : List (List String × String)
  sends : List SendEvent
  edits : List String
  answers : List (Option String)
  saves : List SessionData
  store' : FileContent

/-- A handler run that did nothing and left the store untouched. -/
def emptyHandler (fc : FileContent) : HandlerResult :=
  { loads := 0, spawns := [], sends := [], edits := [], answers := [],
    saves := [], store' := fc }

/-- Embedding of `handle_text` (bot.py:231-241): authorization gate, then one `call_claude`
on the message text and delivery of its reply. -/
def handle_text (cfg : Config) (exec : ExecOracle) (fc : FileContent)
    (username : Option String) (text : String) (docOk : Bool) : HandlerResult :=
  if ¬ is_allowed_user cfg username then emptyHandler fc
  else
    let c := call_claude cfg exec fc text none
    let d := send_response c.reply docOk
    { loads := 1, spawns := c.calls, sends := d.events, edits := [], answers := [],
      saves := c.saved.toList, store' := c.store' }

/-- Embedding of `handle_photo` (bot.py:244-263): authorization gate, caption defaulting,
download of the photo to `temp_images/<file_id>.jpg`, one `call_claude` with
that attachment, delivery; the staged image is removed afterwards. -/
def handle_photo (cfg : Config) (exec : ExecOracle) (fc : FileContent)
    (username : Option String) (fileId : String) (caption : Option String)
    (docOk : Bool) : HandlerResult :=
  if ¬ is_allowed_user cfg username then emptyHandler fc
  else
    let cap := pyOr caption "What's in this image?"
    let image_path := "temp_images/" ++ fileId ++ ".jpg"
    let c := call_claude cfg exec fc cap (some image_path)
    let d := send_response c.reply docOk
    { loads := 1, spawns := c.calls, sends := d.events, edits := [], answers := [],
      saves := c.saved.toList, store' := c.store' }

/-- Embedding of `handle_document` (bot.py:266-292): authorization gate; image documents are
staged like photos (extension from the file name's last dot, `"jpg"` for a
falsy name), other documents turn into a caption-only `call_claude`. -/
def handle_document (cfg : Config) (exec : ExecOracle) (fc : FileContent)
    (username : Option String) (fileId : String) (mime_type : Option String)
    (file_name : Option String) (caption : Option String) (docOk : Bool) :
    HandlerResult :=
  if ¬ is_allowed_user cfg username then emptyHandler fc
  else if (match mime_type with
           | some m => pyStartsWith m "image/"
           | none => false) then
    let cap := pyOr caption "What's in this image?"
    let extension := match file_name with
      | none => "jpg"
      | some n => if n = "" then "jpg" else (n.splitOn ".").getLastD "jpg"
    let image_path := "temp_images/" ++ fileId ++ "." ++ extension
    let c := call_claude cfg exec fc cap (some image_path)
    let d := send_response c.reply docOk
    { loads := 1, spawns := c.calls, sends := d.events, edits := [], answers := [],
      saves := c.saved.toList, store' := c.store' }
  else
    let cap := pyOr caption ("Received file: " ++
      (match file_name with | some n => n | none => "None"))
    let c := call_claude cfg exec fc cap none
    let d := send_response c.reply docOk
    { loads := 1, spawns := c.calls, sends := d.events, edits := [], answers := [],
      saves := c.saved.toList, store' := c.store' }

/-- Session display string: `'active' if session_data.get("session_id") is not
None else 'none'` (note: `is not None`, not truthiness). -/
def sessionStatusStr (sd : SessionData) : String :=
  if sd.session_id.isSome then "active" else "none"

/-- The greeting text of `/start` (emoji and markdown markers elided). -/
def startMessage (sd : SessionData) : String :=
  "Claude Code Bot\n\nScope: " ++ sd.scope ++ "\nSession: " ++ sessionStatusStr sd ++
    "\n\nSend any message to chat with Claude.\nUse /send <file> to get files."

/-- Embedding of `start` (bot.py:295-312): the only entry point that answers unauthorized
senders, with a fixed refusal text; authorized senders get the status greeting. -/
def start (cfg : Config) (fc : FileContent) (username : Option String) :
    HandlerResult :=
  if ¬ is_allowed_user cfg username then
    { emptyHandler fc with
        sends := [.inlineMsg "Sorry, you are not authorized to use this bot."] }
  else
    let sd := load_session_data cfg fc
    { loads := 1, spawns := [], sends := [.inlineMsg (startMessage sd)],
      edits := [], answers := [], saves := [], store' := fc }

/-- Lookup `SCOPE_PRESETS.get(preset, DEFAULT_SCOPE)` (bot.py:376). -/
def presetGet (cfg : Config) (name : String) : String :=
  (List.lookup name cfg.SCOPE_PRESETS).getD cfg.DEFAULT_SCOPE

/-- The directory a `scope_*` button press aims at (bot.py:367-376): strip the
`scope_` marker (Python `replace` removes every occurrence); the synthetic
`new` preset targets a timestamped project directory under the desktop preset,
any other name is looked up in `SCOPE_PRESETS` with `DEFAULT_SCOPE` fallback. -/
def buttonScopeTarget (cfg : Config) (data timestamp : String) : String :=
  let preset := pyReplace data "scope_" ""
  if preset = "new" then
    joinPath (presetGet cfg "desktop") ("claude_project_" ++ timestamp)
  else presetGet cfg preset

/-- The filesystem after the button's side effect: the `new` preset runs
`os.makedirs(..., exist_ok=True)` before the directory check. -/
def buttonScopeEnv (cfg : Config) (env : FsEnv) (data timestamp : String) : FsEnv :=
  if pyReplace data "scope_" "" = "new" then
    makedirs env (buttonScopeTarget cfg data timestamp)
  else env

/-- Main-menu edit text (bot.py:332-339, emoji and markdown elided). -/
def mainMenuText (sd : SessionData) : String :=
  "Claude Code Bot\n\nScope: " ++ sd.scope ++ "\nSession: " ++ sessionStatusStr sd ++
    "\n\nSend any message to chat with Claude."

/-- Scope-menu edit text (bot.py:345-351). -/
def scopeMenuText (sd : SessionData) : String :=
  "Select Scope\n\nCurrent: " ++ sd.scope ++ "\n\nChoose a preset or use /scope <path>"

/-- Session-menu edit text (bot.py:357-364). -/
def sessionMenuText (sd : SessionData) : String :=
  "Session Control\n\nStatus: " ++ sessionStatusStr sd ++
    "\n\nNew Session - start fresh\nResume Last - continue previous"

/-- Status edit text (bot.py:427-433). -/
def statusText (sd : SessionData) : String :=
  "Status\n\nScope: " ++ sd.scope ++ "\nSession: " ++ sessionStatusStr sd

/-- My-ID edit text (bot.py:440-449). -/
def myIdText (chatId userId : Int) (username : Option String) : String :=
  "Your Info\n\nChat ID: " ++ toString chatId ++ "\nUser ID: " ++ toString userId ++
    "\nUsername: @" ++ (match username with | some u => u | none => "None") ++
    "\n\nAdd to .env:\nOWNER_CHAT_ID=" ++ toString chatId

/-- Embedding of `button_handler` (bot.py:315-449): authorization gate answering
`"Not authorized"`, then `query.answer()` and a branch on the callback data.
Menu branches only edit the message; `scope_*` branches store a new scope only
after `os.path.isdir` succeeds (with the `new` preset creating its directory
first); `session_clear` / `session_resume` rewrite the token; unknown data
falls through with no action.  Returns the run's trace and the filesystem
after any `makedirs`. -/
def button_handler (cfg : Config) (env : FsEnv) (fc : FileContent)
    (username : Option String) (data timestamp : String) (chatId userId : Int) :
    HandlerResult × FsEnv :=
  if ¬ is_allowed_user cfg username then
    ({ emptyHandler fc with answers := [some "Not authorized"] }, env)
  else if data = "menu_main" then
    let sd := load_session_data cfg fc
    ({ loads := 1, spawns := [], sends := [], edits := [mainMenuText sd],
       answers := [none], saves := [], store' := fc }, env)
  else if data = "menu_scope" then
    let sd := load_session_data cfg fc
    ({ loads := 1, spawns := [], sends := [], edits := [scopeMenuText sd],
       answers := [none], saves := [], store' := fc }, env)
  else if data = "menu_session" then
    let sd := load_session_data cfg fc
    ({ loads := 1, spawns := [], sends := [], edits := [sessionMenuText sd],
       answers := [none], saves := [], store' := fc }, env)
  else if pyStartsWith data "scope_" then
    let sd := load_session_data cfg fc
    let new_scope := buttonScopeTarget cfg data timestamp
    let env' := buttonScopeEnv cfg env data timestamp
    if env'.isDir new_scope then
      let sd' : SessionData := { sd with scope := new_scope, session_id := none }
      ({ loads := 1, spawns := [], sends := [],
         edits := ["Scope Updated\n\n" ++ new_scope ++ "\n\nSession reset for new scope."],
         answers := [none], saves := [sd'], store' := save_session_data sd' }, env')
    else
      ({ loads := 1, spawns := [], sends := [],
         edits := ["Directory not found: " ++ new_scope],
         answers := [none], saves := [], store' := fc }, env')
  else if data = "session_clear" then
    let sd := load_session_data cfg fc
    let sd' : SessionData := { sd with session_id := none }
    ({ loads := 1, spawns := [], sends := [],
       edits := ["Session Cleared\n\nNext message will start a fresh conversation."],
       answers := [none], saves := [sd'], store' := save_session_data sd' }, env)
  else if data = "session_resume" then
    let sd := load_session_data cfg fc
    let sd' : SessionData := { sd with session_id := some "last" }
    ({ loads := 1, spawns := [], sends := [],
       edits := ["Session Resumed\n\nContinuing last conversation."],
       answers := [none], saves := [sd'], store' := save_session_data sd' }, env)
  else if data = "action_status" then
    let sd := load_session_data cfg fc
    ({ loads := 1, spawns := [], sends := [], edits := [statusText sd],
       answers := [none], saves := [], store' := fc }, env)
  else if data = "action_myid" then
    ({ loads := 0, spawns := [], sends := [],
       edits := [myIdText chatId userId username],
       answers := [none], saves := [], store' := fc }, env)
  else
    ({ emptyHandler fc with answers := [none] }, env)

/-- Embedding of `send_file_cmd` (bot.py:452-493): authorization gate, usage message on no
arguments; otherwise resolve the path against the stored scope, check
existence, file-ness and the 50 MiB ceiling, then send as photo or document
depending on the extension. -/
def send_file_cmd (cfg : Config) (env : FsEnv) (fc : FileContent)
    (username : Option String) (args : List String) : HandlerResult :=
  if ¬ is_allowed_user cfg username then emptyHandler fc
  else if args = [] then
    { emptyHandler fc with
        sends := [.inlineMsg "Usage: /send <file_path>\n\nExample: /send file.txt"] }
  else
    let file_path := String.intercalate " " args
    let sd := load_session_data cfg fc
    let file_path := if ¬ env.isAbs file_path then joinPath sd.scope file_path
                     else file_path
    if ¬ env.pathExists file_path then
      { loads := 1, spawns := [], sends := [.inlineMsg ("File not found: " ++ file_path)],
        edits := [], answers := [], saves := [], store' := fc }
    else if ¬ env.isFile file_path then
      { loads := 1, spawns := [], sends := [.inlineMsg ("Not a file: " ++ file_path)],
        edits := [], answers := [], saves := [], store' := fc }
    else
      let file_size := env.getsize file_path
      if file_size > 50 * 1024 * 1024 then
        { loads := 1, spawns := [],
          sends := [.inlineMsg ("File too large (" ++ toString (file_size / (1024 * 1024)) ++
            "MB). Telegram limit is 50MB.")],
          edits := [], answers := [], saves := [], store' := fc }
      else
        let file_name := env.basename file_path
        let ext := strToLower (env.extension file_name)
        if [".jpg", ".jpeg", ".png", ".gif", ".webp", ".bmp"].contains ext then
          { loads := 1, spawns := [], sends := [.filePhoto file_path file_name],
            edits := [], answers := [], saves := [], store' := fc }
        else
          { loads := 1, spawns := [], sends := [.fileDoc file_path file_name],
            edits := [], answers := [], saves := [], store' := fc }

/-- Embedding of `scope_cmd` (bot.py:496-524): authorization gate; with no argument, report
the current scope; otherwise expand the user path and require
`os.path.isdir` before storing the new scope with the session token reset,
replying with an error and leaving the store untouched when the check fails. -/
def scope_cmd (cfg : Config) (env : FsEnv) (fc : FileContent)
    (username : Option String) (args : List String) : HandlerResult :=
  if ¬ is_allowed_user cfg username then emptyHandler fc
  else if args = [] then
    let sd := load_session_data cfg fc
    { loads := 1, spawns := [],
      sends := [.inlineMsg ("Current scope: " ++ sd.scope ++ "\n\nUse buttons or /scope <path>")],
      edits := [], answers := [], saves := [], store' := fc }
  else
    let new_scope := env.expanduser (String.intercalate " " args)
    if ¬ env.isDir new_scope then
      { loads := 0, spawns := [],
        sends := [.inlineMsg ("Error: '" ++ new_scope ++ "' is not a valid directory.")],
        edits := [], answers := [], saves := [], store' := fc }
    else
      let sd := load_session_data cfg fc
      let sd' : SessionData := { sd with scope := new_scope, session_id := none }
      { loads := 1, spawns := [],
        sends := [.inlineMsg ("Scope set to: " ++ new_scope ++ "\nSession reset.")],
        edits := [], answers := [], saves := [sd'], store' := save_session_data sd' }

/-- Session file states the program itself can produce: the file starts absent
and is only rewritten by the entry points (every `save_session_data` call in
the source is reached through one of these handlers). -/
inductive ReachableFile (cfg : Config) : FileContent → Prop where
  | init : ReachableFile cfg .missing
  | viaText {fc} (exec : ExecOracle) (u : Option String) (t : String) (ok : Bool) :
      ReachableFile cfg fc →
      ReachableFile cfg (handle_text cfg exec fc u t ok).store'
  | viaPhoto {fc} (exec : ExecOracle) (u : Option String) (fileId : String)
      (cap : Option String) (ok : Bool) :
      ReachableFile cfg fc →
      ReachableFile cfg (handle_photo cfg exec fc u fileId cap ok).store'
  | viaDocument {fc} (exec : ExecOracle) (u : Option String) (fileId : String)
      (mime fname cap : Option String) (ok : Bool) :
      ReachableFile cfg fc →
      ReachableFile cfg (handle_document cfg exec fc u fileId mime fname cap ok).store'
  | viaStart {fc} (u : Option String) :
      ReachableFile cfg fc → ReachableFile cfg (start cfg fc u).store'
  | viaButton {fc} (env : FsEnv) (u : Option String) (data ts : String)
      (cid uid : Int) :
      ReachableFile cfg fc →
      ReachableFile cfg (button_handler cfg env fc u data ts cid uid).1.store'
  | viaSendFile {fc} (env : FsEnv) (u : Option String) (args : List String) :
      ReachableFile cfg fc →
      ReachableFile cfg (send_file_cmd cfg env fc u args).store'
  | viaScopeCmd {fc} (env : FsEnv) (u : Option String) (args : List String) :
      ReachableFile cfg fc →
      ReachableFile cfg (scope_cmd cfg env fc u args).store'

/-- Loading a freshly saved record yields the record back (the serialization
round-trip of `json.dumps` / `json.loads` at the AST level). -/
theorem load_save (cfg : Config) (d : SessionData) :
    load_session_data cfg (save_session_data d) = d := by
  obtain ⟨sid, scope⟩ := d
  cases sid <;> rfl

/-- The session token invariant: absent, or the `"last"` sentinel. -/
def GoodTok (t : Option String) : Prop := t = none ∨ t = some "last"

/-- A session file whose loaded token satisfies the invariant. -/
def GoodFile (cfg : Config) (fc : FileContent) : Prop :=
  GoodTok (load_session_data cfg fc).session_id

theorem goodFile_save (cfg : Config) (d : SessionData)
    (h : GoodTok d.session_id) : GoodFile cfg (save_session_data d) := by
  unfold GoodFile
  rw [load_save]
  exact h

/-- Invariant: `call_claude` leaves the session file alone or rewrites it with the loaded
record's token set to `"last"`. -/
theorem call_claude_store' (cfg : Config) (exec : ExecOracle) (fc : FileContent)
    (p : String) (i : Option String) :
    (call_claude cfg exec fc p i).store' = fc ∨
      (call_claude cfg exec fc p i).store' =
        save_session_data
          { load_session_data cfg fc with session_id := some "last" } := by
  cases hE : exec (buildCmd p i (load_session_data cfg fc).session_id)
      (load_session_data cfg fc).scope with
  | notFound => simp [call_claude, hE]
  | exn m => simp [call_claude, hE]
  | done rc out err =>
      by_cases h1 : rc = 0
      · by_cases h3 : pyTruthy (load_session_data cfg fc).session_id = true <;>
          simp [call_claude, hE, h1, h3]
      · by_cases h2 : sessionVocab err = true <;>
          simp [call_claude, hE, h1, h2]

/-- Every record `call_claude` writes carries the `"last"` token. -/
theorem call_claude_saved (cfg : Config) (exec : ExecOracle) (fc : FileContent)
    (p : String) (i : Option String) :
    (call_claude cfg exec fc p i).saved = none ∨
      (call_claude cfg exec fc p i).saved =
        some { load_session_data cfg fc with session_id := some "last" } := by
  cases hE : exec (buildCmd p i (load_session_data cfg fc).session_id)
      (load_session_data cfg fc).scope with
  | notFound => simp [call_claude, hE]
  | exn m => simp [call_claude, hE]
  | done rc out err =>
      by_cases h1 : rc = 0
      · by_cases h3 : pyTruthy (load_session_data cfg fc).session_id = true <;>
          simp [call_claude, hE, h1, h3]
      · by_cases h2 : sessionVocab err = true <;>
          simp [call_claude, hE, h1, h2]

theorem goodFile_call_claude {cfg : Config} {fc : FileContent}
    (exec : ExecOracle) (p : String) (i : Option String)
    (h : GoodFile cfg fc) : GoodFile cfg (call_claude cfg exec fc p i).store' := by
  rcases call_claude_store' cfg exec fc p i with h1 | h1 <;> rw [h1]
  · exact h
  · exact goodFile_save _ _ (Or.inr rfl)

theorem goodFile_handle_text {cfg : Config} {fc : FileContent}
    (exec : ExecOracle) (u : Option String) (t : String) (ok : Bool)
    (h : GoodFile cfg fc) :
    GoodFile cfg (handle_text cfg exec fc u t ok).store' := by
  simp only [handle_text]
  split_ifs <;> first
    | exact h
    | exact goodFile_call_claude exec _ _ h

theorem goodFile_handle_photo {cfg : Config} {fc : FileContent}
    (exec : ExecOracle) (u : Option String) (fileId : String)
    (cap : Option String) (ok : Bool) (h : GoodFile cfg fc) :
    GoodFile cfg (handle_photo cfg exec fc u fileId cap ok).store' := by
  simp only [handle_photo]
  split_ifs <;> first
    | exact h
    | exact goodFile_call_claude exec _ _ h

theorem goodFile_handle_document {cfg : Config} {fc : FileContent}
    (exec : ExecOracle) (u : Option String) (fileId : String)
    (mime fname cap : Option String) (ok : Bool) (h : GoodFile cfg fc) :
    GoodFile cfg (handle_document cfg exec fc u fileId mime fname cap ok).store' := by
  simp only [handle_document]
  split_ifs <;> first
    | exact h
    | exact goodFile_call_claude exec _ _ h

theorem goodFile_start {cfg : Config} {fc : FileContent} (u : Option String)
    (h : GoodFile cfg fc) : GoodFile cfg (start cfg fc u).store' := by
  simp only [start]
  split_ifs <;> exact h

theorem goodFile_button {cfg : Config} {fc : FileContent} (env : FsEnv)
    (u : Option String) (data ts : String) (cid uid : Int)
    (h : GoodFile cfg fc) :
    GoodFile cfg (button_handler cfg env fc u data ts cid uid).1.store' := by
  simp only [button_handler]
  split_ifs <;>
    first
      | exact h
      | exact goodFile_save _ _ (Or.inl rfl)
      | exact goodFile_save _ _ (Or.inr rfl)

theorem goodFile_send_file {cfg : Config} {fc : FileContent} (env : FsEnv)
    (u : Option String) (args : List String) (h : GoodFile cfg fc) :
    GoodFile cfg (send_file_cmd cfg env fc u args).store' := by
  simp only [send_file_cmd]
  split_ifs <;> exact h

theorem goodFile_scope_cmd {cfg : Config} {fc : FileContent} (env : FsEnv)
    (u : Option String) (args : List String) (h : GoodFile cfg fc) :
    GoodFile cfg (scope_cmd cfg env fc u args).store' := by
  simp only [scope_cmd]
  split_ifs <;> first
    | exact h
    | exact goodFile_save _ _ (Or.inl rfl)

/-- The invariant holds of every session file the program can produce. -/
theorem reachable_good (cfg : Config) :
    ∀ fc, ReachableFile cfg fc → GoodFile cfg fc := by
  intro fc h
  induction h with
  | init => exact Or.inl rfl
  | viaText exec u t ok _ ih => exact goodFile_handle_text exec u t ok ih
  | viaPhoto exec u fileId cap ok _ ih =>
      exact goodFile_handle_photo exec u fileId cap ok ih
  | viaDocument exec u fileId mime fname cap ok _ ih =>
      exact goodFile_handle_document exec u fileId mime fname cap ok ih
  | viaStart u _ ih => exact goodFile_start u ih
  | viaButton env u data ts cid uid _ ih =>
      exact goodFile_button env u data ts cid uid ih
  | viaSendFile env u args _ ih => exact goodFile_send_file env u args ih
  | viaScopeCmd env u args _ ih => exact goodFile_scope_cmd env u args ih

/-- Concrete configuration used to exercise the theorems. -/
def cfgW : Config :=
  { ALLOWED_USERNAME := "alice", DEFAULT_SCOPE := "/work",
    SCOPE_PRESETS := [("desktop", "/home/alice/Desktop")] }

/-- Concrete filesystem with no directories or files. -/
def envW : FsEnv :=
  { isDir := fun _ => false, isFile := fun _ => false,
    pathExists := fun _ => false, getsize := fun _ => 0,
    isAbs := fun _ => false, expanduser := fun p => p,
    basename := fun p => p, extension := fun _ => "" }

/-- CLI oracle that always fails with a session-vocabulary stderr. -/
def execSessionErr : ExecOracle := fun _ _ => .done 1 "" "session expired"

/-- CLI oracle that always succeeds with stdout `"hi"`. -/
def execOk : ExecOracle := fun _ _ => .done 0 "hi" ""

/-- A concrete text strictly longer than the inline threshold. -/
def bigT : String := String.mk (List.replicate 4097 'x')

theorem all_replicate_succ_false (n : Nat) (c : Char)
    (hp : Char.isWhitespace c = false) :
    (List.replicate (n + 1) c).all Char.isWhitespace = false := by
  simp [List.replicate_succ, List.all_cons, hp]

theorem isBlank_bigT : isBlank bigT = false :=
  all_replicate_succ_false 4096 'x' (by decide)

theorem bigT_length : TELEGRAM_MAX_LENGTH < bigT.length := by
  show 4096 < (List.replicate 4097 'x').length
  rw [List.length_replicate]
  omega

/-- The first process `call_claude` spawns. -/
theorem call_claude_head (cfg : Config) (exec : ExecOracle) (fc : FileContent)
    (prompt : String) (img : Option String) :
    (call_claude cfg exec fc prompt img).calls.head? =
      some (buildCmd prompt img (load_session_data cfg fc).session_id,
            (load_session_data cfg fc).scope) := by
  cases hE : exec (buildCmd prompt img (load_session_data cfg fc).session_id)
      (load_session_data cfg fc).scope with
  | notFound => simp [call_claude, hE]
  | exn m => simp [call_claude, hE]
  | done rc out err =>
      by_cases h1 : rc = 0
      · by_cases h3 : pyTruthy (load_session_data cfg fc).session_id = true <;>
          simp [call_claude, hE, h1, h3]
      · by_cases h2 : sessionVocab err = true <;>
          simp [call_claude, hE, h1, h2]

/-- C2: for every prompt, optional attachment, stored scope and stored session
token, the invoker's first spawned process receives exactly the argument
vector `claude` / optional `--continue <token>` / optional `--image <path>` /
`-p <prompt>`, in that order, and runs with its working directory set to the
stored scope. -/
theorem claim_C2 :
    ∀ (cfg : Config) (exec : ExecOracle) (fc : FileContent) (prompt : String)
      (img : Option String),
    (call_claude cfg exec fc prompt img).calls.head? =
      some (["claude"]
        ++ (match (load_session_data cfg fc).session_id with
            | some sid => if sid = "" then [] else ["--continue", sid]
            | none => [])
        ++ (match img with
            | some p => if p = "" then [] else ["--image", p]
            | none => [])
        ++ ["-p", prompt],
        (load_session_data cfg fc).scope) :=
  fun cfg exec fc prompt img => call_claude_head cfg exec fc prompt img

/-- C6: loading the session store is total and falls back to the default
record `{session_id := none, scope := DEFAULT_SCOPE}` when the file is
missing, and likewise when it is unreadable or unparsable (both captured by
`FileContent.corrupt`, as the source's bare `except` swallows read errors and
parse errors alike). -/
theorem claim_C6 :
    ∀ (cfg : Config) (raw : String),
    load_session_data cfg FileContent.missing =
      { session_id := none, scope := cfg.DEFAULT_SCOPE }
    ∧ load_session_data cfg (FileContent.corrupt raw) =
      { session_id := none, scope := cfg.DEFAULT_SCOPE } :=
  fun _ _ => ⟨rfl, rfl⟩

/-- C7: `load(); save(s); load()` round-trips — after saving any session
record over any prior file state, loading returns exactly that record. -/
theorem claim_C7 :
    ∀ (cfg : Config) (_fc : FileContent) (s : SessionData),
    load_session_data cfg (save_session_data s) = s :=
  fun cfg _ s => load_save cfg s

/-- C3: delivery normalizes blank text to the fixed placeholder, sends exactly
one inline message when the (normalized) text fits the 4096 threshold, sends
exactly one attachment otherwise — whose content equals the original text and
whose caption reports the original length — never both, and every inline
message it sends fits the threshold. -/
theorem claim_C3 :
    ∀ (T : String) (ok : Bool),
    ((send_response T ok).events.length = 1)
    ∧ (isBlank T = true →
        (send_response T ok).events = [SendEvent.inlineMsg "(empty response)"])
    ∧ (isBlank T = false → T.length ≤ TELEGRAM_MAX_LENGTH →
        (send_response T ok).events = [SendEvent.inlineMsg T])
    ∧ (isBlank T = false → TELEGRAM_MAX_LENGTH < T.length →
        (send_response T ok).events =
          [SendEvent.document T "response.txt" (tooLongCaption T.length)])
    ∧ (∀ s, SendEvent.inlineMsg s ∈ (send_response T ok).events →
        s.length ≤ TELEGRAM_MAX_LENGTH) := by
  intro T ok
  have hph : ("(empty response)" : String).length ≤ TELEGRAM_MAX_LENGTH := by decide
  refine ⟨?_, ?_, ?_, ?_, ?_⟩
  · simp only [send_response]
    split_ifs <;> simp
  · intro hB
    simp [send_response, hB, hph]
  · intro hB hle
    simp [send_response, hB, hle]
  · intro hB hgt
    have hnle : ¬ T.length ≤ TELEGRAM_MAX_LENGTH := by omega
    simp [send_response, hB, hnle]
  · intro s hs
    by_cases hB : isBlank T = true
    · simp [send_response, hB, hph] at hs
      rw [hs]
      exact hph
    · by_cases hle : T.length ≤ TELEGRAM_MAX_LENGTH
      · simp [send_response, hB, hle] at hs
        rw [hs]
        exact hle
      · simp [send_response, hB, hle] at hs

theorem claim_C3_witness :
    (send_response "hi" true).events = [SendEvent.inlineMsg "hi"] :=
  (claim_C3 "hi" true).2.2.1 (by decide) (by decide)

/-- C8: the staging temporary file never survives a delivery: it is removed
exactly when it was created, and for every non-blank text longer than the
threshold it is both created and removed, on the success path and on the
failure path of the attachment send alike. -/
theorem claim_C8 :
    ∀ (T : String) (ok : Bool),
    ((send_response T ok).tempRemoved = (send_response T ok).tempCreated)
    ∧ (isBlank T = false → TELEGRAM_MAX_LENGTH < T.length →
        (send_response T ok).tempCreated = true
        ∧ (send_response T ok).tempRemoved = true) := by
  intro T ok
  constructor
  · simp only [send_response]
    split_ifs <;> rfl
  · intro hB hgt
    have hnle : ¬ T.length ≤ TELEGRAM_MAX_LENGTH := by omega
    constructor <;> simp [send_response, hB, hnle]

theorem claim_C8_witness :
    (send_response bigT false).tempCreated = true
    ∧ (send_response bigT false).tempRemoved = true :=
  (claim_C8 bigT false).2 isBlank_bigT bigT_length

/-- The recovery call always spawns exactly one process, with the token-free
argument vector, whatever its outcome (including a stderr that again contains
session vocabulary). -/
theorem new_session_calls (exec : ExecOracle) (prompt : String)
    (img : Option String) (scope : String) :
    (call_claude_new_session exec prompt img scope).calls =
      [(buildCmd prompt img none, scope)] := by
  cases hE : exec (buildCmd prompt img none) scope with
  | notFound => simp [call_claude_new_session, hE]
  | exn m => simp [call_claude_new_session, hE]
  | done rc out err =>
      by_cases h : rc = 0 <;> simp [call_claude_new_session, hE, h]

/-- C1: when the first CLI invocation exits nonzero with session vocabulary in
its stderr, the invoker performs exactly one recovery: it spawns exactly one
further process with the same prompt, attachment and scope but no continuation
token, returns that second outcome verbatim, writes nothing to the session
store, and the recovery call itself never spawns more than its single
process. -/
theorem claim_C1 :
    ∀ (cfg : Config) (exec : ExecOracle) (fc : FileContent) (prompt : String)
      (img : Option String) (rc : Int) (out err : String),
    exec (buildCmd prompt img (load_session_data cfg fc).session_id)
        (load_session_data cfg fc).scope = ProcResult.done rc out err →
    rc ≠ 0 →
    sessionVocab err = true →
    (call_claude cfg exec fc prompt img).calls =
      [(buildCmd prompt img (load_session_data cfg fc).session_id,
        (load_session_data cfg fc).scope),
       (buildCmd prompt img none, (load_session_data cfg fc).scope)]
    ∧ (call_claude cfg exec fc prompt img).reply =
        (call_claude_new_session exec prompt img
          (load_session_data cfg fc).scope).reply
    ∧ (call_claude cfg exec fc prompt img).saved = none
    ∧ (call_claude cfg exec fc prompt img).store' = fc
    ∧ (call_claude_new_session exec prompt img
        (load_session_data cfg fc).scope).calls =
      [(buildCmd prompt img none, (load_session_data cfg fc).scope)] := by
  intro cfg exec fc prompt img rc out err hE hrc hvocab
  have hcalls := new_session_calls exec prompt img (load_session_data cfg fc).scope
  refine ⟨?_, ?_, ?_, ?_, hcalls⟩ <;>
    simp [call_claude, hE, hrc, hvocab, hcalls]

theorem claim_C1_witness :
    (call_claude cfgW execSessionErr FileContent.missing "hello" none).calls =
      [(buildCmd "hello" none
          (load_session_data cfgW FileContent.missing).session_id,
        (load_session_data cfgW FileContent.missing).scope),
       (buildCmd "hello" none none,
        (load_session_data cfgW FileContent.missing).scope)]
    ∧ (call_claude cfgW execSessionErr FileContent.missing "hello" none).reply =
        (call_claude_new_session execSessionErr "hello" none
          (load_session_data cfgW FileContent.missing).scope).reply
    ∧ (call_claude cfgW execSessionErr FileContent.missing "hello" none).saved = none
    ∧ (call_claude cfgW execSessionErr FileContent.missing "hello" none).store' =
        FileContent.missing
    ∧ (call_claude_new_session execSessionErr "hello" none
        (load_session_data cfgW FileContent.missing).scope).calls =
      [(buildCmd "hello" none none,
        (load_session_data cfgW FileContent.missing).scope)] :=
  claim_C1 cfgW execSessionErr FileContent.missing "hello" none 1 "" "session expired"
    rfl (by decide) (by decide)

/-- C4: on a successful invocation (exit code 0) that started from a state
with no truthy session token, the store is rewritten with the `"last"`
continuation marker and the very scope that was loaded at the start of the
call; a successful call that already held a token does not write the store at
all. -/
theorem claim_C4 :
    ∀ (cfg : Config) (exec : ExecOracle) (fc : FileContent) (prompt : String)
      (img : Option String) (out err : String),
    exec (buildCmd prompt img (load_session_data cfg fc).session_id)
        (load_session_data cfg fc).scope = ProcResult.done 0 out err →
    ((pyTruthy (load_session_data cfg fc).session_id = false →
        (call_claude cfg exec fc prompt img).saved =
          some { session_id := some "last",
                 scope := (load_session_data cfg fc).scope }
        ∧ load_session_data cfg (call_claude cfg exec fc prompt img).store' =
            { session_id := some "last",
              scope := (load_session_data cfg fc).scope })
    ∧ (pyTruthy (load_session_data cfg fc).session_id = true →
        (call_claude cfg exec fc prompt img).saved = none
        ∧ (call_claude cfg exec fc prompt img).store' = fc)) := by
  intro cfg exec fc prompt img out err hE
  constructor
  · intro hF
    have h2 : (call_claude cfg exec fc prompt img).store' =
        save_session_data
          { session_id := some "last",
            scope := (load_session_data cfg fc).scope } := by
      simp [call_claude, hE, hF]
    refine ⟨by simp [call_claude, hE, hF], ?_⟩
    rw [h2, load_save]
  · intro hT
    constructor <;> simp [call_claude, hE, hT]

theorem claim_C4_witness :
    (call_claude cfgW execOk FileContent.missing "hello" none).saved =
      some { session_id := some "last",
             scope := (load_session_data cfgW FileContent.missing).scope }
    ∧ load_session_data cfgW
        (call_claude cfgW execOk FileContent.missing "hello" none).store' =
        { session_id := some "last",
          scope := (load_session_data cfgW FileContent.missing).scope } :=
  (claim_C4 cfgW execOk FileContent.missing "hello" none "hi" "" rfl).1 rfl

/-- C9: every entry point gates on the case-insensitive username check before
touching the session store or the CLI: an unauthorized text, photo, document,
`/send` or `/scope` event produces no store load, no spawn and no outbound
message at all; only `/start` answers with the fixed refusal text, and the
button callback merely answers the callback query with "Not authorized". -/
theorem claim_C9 :
    ∀ (cfg : Config) (env : FsEnv) (exec : ExecOracle) (fc : FileContent)
      (u : Option String) (text fileId : String) (mime fname cap : Option String)
      (args : List String) (data ts : String) (cid uid : Int) (ok : Bool),
    is_allowed_user cfg u = false →
    handle_text cfg exec fc u text ok = emptyHandler fc
    ∧ handle_photo cfg exec fc u fileId cap ok = emptyHandler fc
    ∧ handle_document cfg exec fc u fileId mime fname cap ok = emptyHandler fc
    ∧ send_file_cmd cfg env fc u args = emptyHandler fc
    ∧ scope_cmd cfg env fc u args = emptyHandler fc
    ∧ start cfg fc u =
        { emptyHandler fc with
            sends := [SendEvent.inlineMsg "Sorry, you are not authorized to use this bot."] }
    ∧ (button_handler cfg env fc u data ts cid uid).1 =
        { emptyHandler fc with answers := [some "Not authorized"] }
    ∧ (∀ v, v ≠ "" →
        (is_allowed_user cfg (some v) = true ↔
          strToLower v = strToLower cfg.ALLOWED_USERNAME)) := by
  intro cfg env exec fc u text fileId mime fname cap args data ts cid uid ok h
  refine ⟨?_, ?_, ?_, ?_, ?_, ?_, ?_, ?_⟩
  · simp [handle_text, h]
  · simp [handle_photo, h]
  · simp [handle_document, h]
  · simp [send_file_cmd, h]
  · simp [scope_cmd, h]
  · simp [start, h]
  · simp [button_handler, h]
  · intro v hv
    simp [is_allowed_user, hv]

theorem claim_C9_witness :
    handle_text cfgW execOk FileContent.missing (some "bob") "hi" true =
      emptyHandler FileContent.missing
    ∧ handle_photo cfgW execOk FileContent.missing (some "bob") "f1" none true =
      emptyHandler FileContent.missing
    ∧ handle_document cfgW execOk FileContent.missing (some "bob") "f1" none none none true =
      emptyHandler FileContent.missing
    ∧ send_file_cmd cfgW envW FileContent.missing (some "bob") [] =
      emptyHandler FileContent.missing
    ∧ scope_cmd cfgW envW FileContent.missing (some "bob") [] =
      emptyHandler FileContent.missing
    ∧ start cfgW FileContent.missing (some "bob") =
        { emptyHandler FileContent.missing with
            sends := [SendEvent.inlineMsg "Sorry, you are not authorized to use this bot."] }
    ∧ (button_handler cfgW envW FileContent.missing (some "bob") "menu_main" "ts" 0 0).1 =
        { emptyHandler FileContent.missing with answers := [some "Not authorized"] }
    ∧ (∀ v, v ≠ "" →
        (is_allowed_user cfgW (some v) = true ↔
          strToLower v = strToLower cfgW.ALLOWED_USERNAME)) :=
  claim_C9 cfgW envW execOk FileContent.missing (some "bob") "hi" "f1" none none none
    [] "menu_main" "ts" 0 0 true (by decide)

/-- C5: every scope-changing operation — the `/scope` command and the scope
preset buttons, with the `new` preset first creating its timestamped
directory — stores a scope only after `os.path.isdir` succeeded on the
filesystem as it stood at that moment; when the requested path is not an
existing directory the stored record is untouched and an error message goes
back to the user. -/
theorem claim_C5 :
    ∀ (cfg : Config) (env : FsEnv) (fc : FileContent) (u : Option String)
      (args : List String) (data ts : String) (cid uid : Int),
    (∀ d ∈ (scope_cmd cfg env fc u args).saves, env.isDir d.scope = true)
    ∧ (args ≠ [] →
        env.isDir (env.expanduser (String.intercalate " " args)) = false →
        (scope_cmd cfg env fc u args).saves = []
        ∧ (scope_cmd cfg env fc u args).store' = fc
        ∧ (is_allowed_user cfg u = true →
            (scope_cmd cfg env fc u args).sends =
              [SendEvent.inlineMsg ("Error: '" ++
                env.expanduser (String.intercalate " " args) ++
                "' is not a valid directory.")]))
    ∧ (pyStartsWith data "scope_" = true →
        (∀ d ∈ (button_handler cfg env fc u data ts cid uid).1.saves,
          (buttonScopeEnv cfg env data ts).isDir d.scope = true)
        ∧ ((buttonScopeEnv cfg env data ts).isDir (buttonScopeTarget cfg data ts) = false →
            (button_handler cfg env fc u data ts cid uid).1.saves = []
            ∧ (button_handler cfg env fc u data ts cid uid).1.store' = fc
            ∧ (is_allowed_user cfg u = true →
                (button_handler cfg env fc u data ts cid uid).1.edits =
                  ["Directory not found: " ++ buttonScopeTarget cfg data ts]))) := by
  intro cfg env fc u args data ts cid uid
  refine ⟨?_, ?_, ?_⟩
  · intro d hd
    revert hd
    simp only [scope_cmd]
    split_ifs with h1 h2 h3 <;> intro hd <;> simp [emptyHandler] at hd
    rw [hd]
    exact h3
  · intro hargs hdir
    by_cases hauth : is_allowed_user cfg u = true
    · refine ⟨?_, ?_, fun _ => ?_⟩ <;> simp [scope_cmd, hargs, hdir, hauth]
    · refine ⟨?_, ?_, fun h' => absurd h' hauth⟩ <;>
        simp [scope_cmd, hauth, emptyHandler]
  · intro hdata
    constructor
    · intro d hd
      revert hd
      simp only [button_handler]
      split_ifs <;> intro hd <;> simp_all [emptyHandler]
    · intro hdirF
      by_cases hauth : is_allowed_user cfg u = true
      · have hnm : data ≠ "menu_main" := by
          intro hh; rw [hh] at hdata; exact absurd hdata (by decide)
        have hns : data ≠ "menu_scope" := by
          intro hh; rw [hh] at hdata; exact absurd hdata (by decide)
        have hnsess : data ≠ "menu_session" := by
          intro hh; rw [hh] at hdata; exact absurd hdata (by decide)
        refine ⟨?_, ?_, fun _ => ?_⟩ <;>
          simp [button_handler, hauth, hnm, hns, hnsess, hdata, hdirF]
      · refine ⟨?_, ?_, fun h' => absurd h' hauth⟩ <;>
          simp [button_handler, hauth, emptyHandler]

theorem claim_C5_witness :
    (button_handler cfgW envW FileContent.missing (some "alice") "scope_desktop"
        "ts" 0 0).1.saves = []
    ∧ (button_handler cfgW envW FileContent.missing (some "alice") "scope_desktop"
        "ts" 0 0).1.store' = FileContent.missing
    ∧ (is_allowed_user cfgW (some "alice") = true →
        (button_handler cfgW envW FileContent.missing (some "alice") "scope_desktop"
            "ts" 0 0).1.edits =
          ["Directory not found: " ++ buttonScopeTarget cfgW "scope_desktop" "ts"]) :=
  ((claim_C5 cfgW envW FileContent.missing (some "alice") [] "scope_desktop" "ts" 0 0).2.2
    (by decide)).2 (by decide)

/-- C10: the stored session token is always either absent or the literal
`"last"`: every record any handler ever writes satisfies this, every session
file the program can produce loads to such a token, and consequently the
continuation flag handed to the CLI, when present at all, carries exactly
`"last"`. -/
theorem claim_C10 :
    ∀ (cfg : Config),
    (∀ (exec : ExecOracle) (fc : FileContent) (p : String) (i : Option String)
       (d : SessionData), (call_claude cfg exec fc p i).saved = some d →
        d.session_id = none ∨ d.session_id = some "last")
    ∧ (∀ (env : FsEnv) (fc : FileContent) (u : Option String) (data ts : String)
         (cid uid : Int) (d : SessionData),
        d ∈ (button_handler cfg env fc u data ts cid uid).1.saves →
        d.session_id = none ∨ d.session_id = some "last")
    ∧ (∀ (env : FsEnv) (fc : FileContent) (u : Option String)
         (args : List String) (d : SessionData),
        d ∈ (scope_cmd cfg env fc u args).saves →
        d.session_id = none ∨ d.session_id = some "last")
    ∧ (∀ fc, ReachableFile cfg fc →
        (load_session_data cfg fc).session_id = none ∨
        (load_session_data cfg fc).session_id = some "last")
    ∧ (∀ (fc : FileContent) (p : String) (i : Option String),
        ReachableFile cfg fc →
        buildCmd p i (load_session_data cfg fc).session_id = buildCmd p i none
        ∨ buildCmd p i (load_session_data cfg fc).session_id =
            ["claude", "--continue", "last"]
              ++ (match i with
                  | some ip => if ip = "" then [] else ["--image", ip]
                  | none => [])
              ++ ["-p", p]) := by
  intro cfg
  refine ⟨?_, ?_, ?_, ?_, ?_⟩
  · intro exec fc p i d hd
    rcases call_claude_saved cfg exec fc p i with h | h <;> rw [h] at hd
    · exact absurd hd (by simp)
    · cases hd
      exact Or.inr rfl
  · intro env fc u data ts cid uid d hd
    revert hd
    simp only [button_handler]
    split_ifs <;> intro hd <;> simp [emptyHandler] at hd <;> rw [hd] <;> simp
  · intro env fc u args d hd
    revert hd
    simp only [scope_cmd]
    split_ifs <;> intro hd <;> simp [emptyHandler] at hd
    rw [hd]
    exact Or.inl rfl
  · intro fc h
    exact reachable_good cfg fc h
  · intro fc p i h
    rcases reachable_good cfg fc h with htok | htok <;> rw [htok]
    · exact Or.inl rfl
    · refine Or.inr ?_
      simp [buildCmd]

theorem claim_C10_witness :
    (load_session_data cfgW FileContent.missing).session_id = none ∨
    (load_session_data cfgW FileContent.missing).session_id = some "last" :=
  (claim_C10 cfgW).2.2.2.1 FileContent.missing ReachableFile.init

end Bot
